import Mathlib

/-!
Verification of the client-side chat session connection manager of the
Whats-Good frontend.  The repository contains two near-duplicate variants of
the component:

* `src/unnamed/part_003` (`ChatInterface`, the variant with the richest
  inbound-frame handling: frame type `status`, a catch branch that clears the
  processing-status list and appends an error message, and an `error` branch
  that clears the processing-status list) — embedded in namespace `Part003`;
* `src/frontend/src/components/chat/ChatInterface.tsx` (the variant with the
  richest send/lifecycle handling: an input/connectivity guard in
  `sendMessage`, a stored reconnect-timer handle cleared on unmount, and a
  `connectWebSocket()` recovery call in the send failure path) — embedded in
  namespace `Frontend`.

State setters (`setMessages`, `setIsLoading`, ...) are modelled as functional
updates of a `ChatState` record; the scheduled reconnect `setTimeout` is
modelled by the `reconnectPending` flag together with the explicit
`reconnectFire` step; construction of a `new WebSocket(...)` (and the client
identifier generated alongside it) is counted by the ghost fields
`socketsCreated` and `clientIdsGenerated`.
-/

/-- WebSocket readyState constants. -/
inductive ReadyState
  | CONNECTING
  | OPEN
  | CLOSING
  | CLOSED
deriving DecidableEq, Repr

/-- Message metadata as used by the component: an optional platform label and
the error flag (`metadata: { error: true }`). Extra open-record keys carried by
inbound frames are not observed by any handler and are omitted. -/
structure Metadata where
  platform : Option String
  error : Bool
deriving DecidableEq, Repr

/-- Role of a transcript entry: the TS union `'user' | 'assistant'`. -/
inductive Role
  | user
  | assistant
deriving DecidableEq, Repr

/-- One transcript entry (interface `Message`). -/
structure Message where
  role : Role
  content : String
  metadata : Option Metadata
deriving DecidableEq, Repr

/-- One ephemeral progress note (interface `ProcessingStatus`): the carried
text and the `Date.now()` timestamp recorded when it was appended. -/
structure ProcessingStatus where
  message : String
  timestamp : Nat
deriving DecidableEq, Repr

/-- The parsed fields of an inbound JSON frame.  `type` is the discriminator;
`message` carries the text of a `status` frame (part_003 variant), `status`
carries the text of a `processing_status` frame (frontend variant), `content`
and `metadata` belong to `message` frames and `error` to `error` frames. -/
structure InboundData where
  type : String
  message : String
  status : String
  content : String
  metadata : Option Metadata
  error : String
deriving DecidableEq, Repr

/-- An inbound payload: either it parses as JSON (`parsed`) or `JSON.parse`
throws (`malformed`), which lands in the handler's catch block. -/
inductive Inbound
  | parsed (data : InboundData)
  | malformed
deriving DecidableEq, Repr

/-- The outbound frame built by `sendMessage`. -/
structure OutboundFrame where
  message : String
  article_id : String
  brand_id : String
  platform : String
deriving DecidableEq, Repr

/-- The component state: the React state hooks and refs of `ChatInterface`,
plus two ghost counters observing `new WebSocket(...)` constructions and
client-identifier generations.  `wsRef = none` models `wsRef.current = null`;
`reconnectPending` models a scheduled, not yet fired, reconnect timeout. -/
structure ChatState where
  messages : List Message
  input : String
  isConnected : Bool
  isLoading : Bool
  processingStatuses : List ProcessingStatus
  reconnectAttempts : Nat
  wsRef : Option ReadyState
  reconnectPending : Bool
  socketsCreated : Nat
  clientIdsGenerated : Nat
deriving DecidableEq, Repr

/-- The assistant message appended by part_003's `ws.onmessage` catch block. -/
def parseFailureMessage : Message :=
  { role := Role.assistant
    content := "Error: Failed to process response"
    metadata := some { platform := none, error := true } }

/-- The assistant message appended by the send failure (catch) path. -/
def sendFailureMessage : Message :=
  { role := Role.assistant
    content := "Failed to send message. Please try again."
    metadata := some { platform := none, error := true } }

/-- JavaScript `String.prototype.trim()`: strip leading and trailing
whitespace. -/
def jsTrim (str : String) : String :=
  String.mk (((str.data.dropWhile Char.isWhitespace).reverse.dropWhile
    Char.isWhitespace).reverse)

namespace Part003

/-- Embeds `connectWebSocket` of src/unnamed/part_003 (lines 39-48): if the
current socket is CONNECTING or OPEN, return without doing anything;
otherwise generate a fresh client id and construct a new WebSocket. -/
def connectWebSocket (s : ChatState) : ChatState :=
  match s.wsRef with
  | some ReadyState.CONNECTING => s
  | some ReadyState.OPEN => s
  | _ =>
    { s with wsRef := some ReadyState.CONNECTING
             socketsCreated := s.socketsCreated + 1
             clientIdsGenerated := s.clientIdsGenerated + 1 }

/-- Embeds `ws.onclose` of src/unnamed/part_003 (lines 56-68): mark
disconnected, null the socket ref, and schedule a reconnect timeout iff the
close code is not 1000 and the retry counter is below 3. -/
def onclose (code : Nat) (s : ChatState) : ChatState :=
  let s1 := { s with isConnected := false, wsRef := none }
  if code ≠ 1000 ∧ s1.reconnectAttempts < 3 then
    { s1 with reconnectPending := true }
  else s1

/-- Embeds the reconnect timeout callback of src/unnamed/part_003
(lines 63-66): increment the retry counter, then call `connectWebSocket`. -/
def reconnectFire (s : ChatState) : ChatState :=
  connectWebSocket
    { s with reconnectAttempts := s.reconnectAttempts + 1, reconnectPending := false }

/-- Embeds `ws.onmessage` of src/unnamed/part_003 (lines 75-121).  `now` is
the value of `Date.now()` at handling time.  A `malformed` payload makes
`JSON.parse` throw before `setIsLoading(false)` is reached, so the catch
block runs on the state as received. -/
def onmessage (now : Nat) (inb : Inbound) (s : ChatState) : ChatState :=
  match inb with
  | Inbound.malformed =>
    { s with processingStatuses := []
             messages := s.messages ++ [parseFailureMessage] }
  | Inbound.parsed d =>
    if d.type = "ping" then s
    else
      let s1 := { s with isLoading := false }
      if d.type = "status" then
        { s1 with processingStatuses :=
            s1.processingStatuses ++ [{ message := d.message, timestamp := now }] }
      else if d.type = "message" then
        { s1 with processingStatuses := []
                  messages := s1.messages ++
                    [{ role := Role.assistant, content := d.content, metadata := d.metadata }] }
      else if d.type = "error" then
        { s1 with processingStatuses := []
                  messages := s1.messages ++
                    [{ role := Role.assistant
                       content := "Error: " ++ d.error
                       metadata := some { platform := none, error := true } }] }
      else s1

/-- The canonical run of four consecutive abnormal closures with no
intervening open event: each scheduled reconnect timeout fires (which is what
makes the next close event possible, since a close needs a socket). -/
def abnormalClosureRun (code : Nat) (s : ChatState) : ChatState :=
  let s1 := onclose code s
  let s2 := reconnectFire s1
  let s3 := onclose code s2
  let s4 := reconnectFire s3
  let s5 := onclose code s4
  let s6 := reconnectFire s5
  onclose code s6

/-- No close event, whatever its code, can schedule a reconnect from this
state. -/
def noFurtherReconnect (s : ChatState) : Prop :=
  ∀ code : Nat, (onclose code s).reconnectPending = s.reconnectPending

end Part003

namespace Frontend

/-- Embeds `connectWebSocket` of ChatInterface.tsx (lines 44-139, connection
setup part): first clear any pending reconnect timeout, then no-op if the
socket is OPEN or CONNECTING; otherwise close and discard any stale socket,
generate a fresh client id and construct a new WebSocket. -/
def connectWebSocket (s : ChatState) : ChatState :=
  let s1 := { s with reconnectPending := false }
  match s1.wsRef with
  | some ReadyState.OPEN => s1
  | some ReadyState.CONNECTING => s1
  | _ =>
    { s1 with wsRef := some ReadyState.CONNECTING
              socketsCreated := s1.socketsCreated + 1
              clientIdsGenerated := s1.clientIdsGenerated + 1 }

/-- Embeds `ws.onclose` of ChatInterface.tsx (lines 120-133): identical
scheduling condition to the part_003 variant, with the timeout handle kept in
`reconnectTimeoutRef`. -/
def onclose (code : Nat) (s : ChatState) : ChatState :=
  let s1 := { s with isConnected := false, wsRef := none }
  if code ≠ 1000 ∧ s1.reconnectAttempts < 3 then
    { s1 with reconnectPending := true }
  else s1

/-- Embeds `ws.onmessage` of ChatInterface.tsx (lines 78-118): the status
frame type is `processing_status` carrying `data.status`; the `error` branch
does not clear the processing-status list; the catch block only logs. -/
def onmessage (now : Nat) (inb : Inbound) (s : ChatState) : ChatState :=
  match inb with
  | Inbound.malformed => s
  | Inbound.parsed d =>
    if d.type = "ping" then s
    else
      let s1 := { s with isLoading := false }
      if d.type = "processing_status" then
        { s1 with processingStatuses :=
            s1.processingStatuses ++ [{ message := d.status, timestamp := now }] }
      else if d.type = "message" then
        { s1 with processingStatuses := []
                  messages := s1.messages ++
                    [{ role := Role.assistant, content := d.content, metadata := d.metadata }] }
      else if d.type = "error" then
        { s1 with messages := s1.messages ++
            [{ role := Role.assistant
               content := "Error: " ++ d.error
               metadata := some { platform := none, error := true } }] }
      else s1

/-- The guard of `sendMessage` in ChatInterface.tsx (line 161):
`!input.trim() || !wsRef.current || !isConnected || isLoading`. -/
def sendBlocked (s : ChatState) : Bool :=
  jsTrim s.input == "" || s.wsRef.isNone || !s.isConnected || s.isLoading

/-- Result of one `sendMessage` invocation: the component state afterwards,
the frame put on the wire (if any), and whether `connectWebSocket()` was
invoked as recovery. -/
structure SendResult where
  state : ChatState
  sentFrame : Option OutboundFrame
  connectCalled : Bool
deriving DecidableEq, Repr

/-- Embeds `sendMessage` of ChatInterface.tsx (lines 158-207): early return
when the guard trips; otherwise mark loading, and if the socket readyState is
OPEN transmit the frame, append the user message and clear the input buffer;
any other readyState throws into the catch, which clears loading, appends
`sendFailureMessage` and calls `connectWebSocket()` (the socket is still not
OPEN there). -/
def sendMessage (articleId brandId : String) (s : ChatState) : SendResult :=
  if sendBlocked s then { state := s, sentFrame := none, connectCalled := false }
  else
    let s1 := { s with isLoading := true }
    match s1.wsRef with
    | some ReadyState.OPEN =>
      let frame : OutboundFrame :=
        { message := jsTrim s.input
          article_id := articleId
          brand_id := brandId
          platform := "General" }
      { state :=
          { s1 with messages := s1.messages ++
                      [{ role := Role.user, content := jsTrim s.input, metadata := none }]
                    input := "" }
        sentFrame := some frame
        connectCalled := false }
    | _ =>
      let s2 :=
        { s1 with isLoading := false
                  messages := s1.messages ++ [sendFailureMessage] }
      { state := connectWebSocket s2, sentFrame := none, connectCalled := true }

/-- Embeds the `useEffect` cleanup of ChatInterface.tsx (lines 146-155): clear
the pending reconnect timeout, then close the live socket with
`close(1000, "Component unmounting")` and null the ref.  The second component
reports the close call issued, if any. -/
def cleanup (s : ChatState) : ChatState × Option (Nat × String) :=
  let s1 := { s with reconnectPending := false }
  match s1.wsRef with
  | some _ => ({ s1 with wsRef := none }, some (1000, "Component unmounting"))
  | none => (s1, none)

end Frontend

/-- A sample state with a request in flight: loading set, one processing
status displayed, socket open. -/
def sampleLoading : ChatState :=
  { messages := []
    input := ""
    isConnected := true
    isLoading := true
    processingStatuses := [{ message := "retrieving context", timestamp := 1 }]
    reconnectAttempts := 0
    wsRef := some ReadyState.OPEN
    reconnectPending := false
    socketsCreated := 1
    clientIdsGenerated := 1 }

/-- A sample state whose socket is gone and whose connected flag is down. -/
def disconnectedState : ChatState :=
  { messages := []
    input := "hello"
    isConnected := false
    isLoading := false
    processingStatuses := []
    reconnectAttempts := 0
    wsRef := none
    reconnectPending := false
    socketsCreated := 1
    clientIdsGenerated := 1 }

/-- A sample state whose socket has silently dropped (readyState CLOSED) while
the `isConnected` flag is still stale-true. -/
def staleOpenState : ChatState :=
  { messages := []
    input := "hello"
    isConnected := true
    isLoading := false
    processingStatuses := []
    reconnectAttempts := 0
    wsRef := some ReadyState.CLOSED
    reconnectPending := false
    socketsCreated := 1
    clientIdsGenerated := 1 }

/-- A well-formed `status` frame carrying the text "thinking". -/
def statusFrameSample : InboundData :=
  { type := "status", message := "thinking", status := "", content := ""
    metadata := none, error := "" }

/-- A well-formed `message` frame carrying the content "hello back". -/
def messageFrameSample : InboundData :=
  { type := "message", message := "", status := "", content := "hello back"
    metadata := none, error := "" }

/-- A well-formed `error` frame carrying the error text "boom". -/
def errorFrameSample : InboundData :=
  { type := "error", message := "", status := "", content := ""
    metadata := none, error := "boom" }

/-- A parsed frame whose type discriminator matches no handled branch. -/
def unknownFrameSample : InboundData :=
  { type := "pong", message := "", status := "", content := ""
    metadata := none, error := "" }

/-- C1 counterexample: with a request in flight (`isLoading = true`), a
`status` frame does NOT leave the loading flag unchanged — the handler runs
`setIsLoading(false)` before the `status` branch, so the flag drops to
false. -/
theorem status_frame_clears_loading_cex :
    sampleLoading.isLoading = true ∧
    (Part003.onmessage 5 (Inbound.parsed statusFrameSample) sampleLoading).isLoading = false :=
  ⟨rfl, rfl⟩

/-- C1 (amended): a frame whose type is `status` sets the loading flag to
false and appends one ProcessingStatus holding the carried text and the
current timestamp; nothing else changes. -/
theorem status_frame_effect (now : Nat) (d : InboundData) (s : ChatState)
    (hd : d.type = "status") :
    Part003.onmessage now (Inbound.parsed d) s =
      { s with isLoading := false
               processingStatuses := s.processingStatuses ++
                 [{ message := d.message, timestamp := now }] } := by
  simp [Part003.onmessage, hd]

/-- C1 amended-claim witness at a concrete frame and state. -/
theorem status_frame_effect_witness :
    statusFrameSample.type = "status" ∧
    Part003.onmessage 5 (Inbound.parsed statusFrameSample) sampleLoading =
      { sampleLoading with
          isLoading := false
          processingStatuses := sampleLoading.processingStatuses ++
            [{ message := statusFrameSample.message, timestamp := 5 }] } :=
  ⟨rfl, status_frame_effect 5 statusFrameSample sampleLoading rfl⟩

/-- C2: starting with a zero retry counter, four consecutive abnormal
closures (each scheduled reconnect firing in between, which is what produces
the next closable socket) execute exactly 3 reconnect attempts; after the 4th
closure the connection is down, the socket ref is null, no reconnect is
pending, and no close event of any code can schedule a further one. -/
theorem abnormal_closure_retry_ceiling (s : ChatState) (code : Nat)
    (h0 : s.reconnectAttempts = 0) (hc : code ≠ 1000) :
    (Part003.abnormalClosureRun code s).socketsCreated = s.socketsCreated + 3 ∧
    (Part003.abnormalClosureRun code s).reconnectAttempts = 3 ∧
    (Part003.abnormalClosureRun code s).reconnectPending = false ∧
    (Part003.abnormalClosureRun code s).isConnected = false ∧
    (Part003.abnormalClosureRun code s).wsRef = none ∧
    Part003.noFurtherReconnect (Part003.abnormalClosureRun code s) := by
  simp [Part003.abnormalClosureRun, Part003.onclose, Part003.reconnectFire,
        Part003.connectWebSocket, Part003.noFurtherReconnect, h0, hc]

/-- C2 witness: the run evaluated from a concrete open state with close code
1006. -/
theorem abnormal_closure_retry_ceiling_witness :
    sampleLoading.reconnectAttempts = 0 ∧ (1006 : Nat) ≠ 1000 ∧
    ((Part003.abnormalClosureRun 1006 sampleLoading).socketsCreated =
        sampleLoading.socketsCreated + 3 ∧
      (Part003.abnormalClosureRun 1006 sampleLoading).reconnectAttempts = 3 ∧
      (Part003.abnormalClosureRun 1006 sampleLoading).reconnectPending = false ∧
      (Part003.abnormalClosureRun 1006 sampleLoading).isConnected = false ∧
      (Part003.abnormalClosureRun 1006 sampleLoading).wsRef = none ∧
      Part003.noFurtherReconnect (Part003.abnormalClosureRun 1006 sampleLoading)) :=
  ⟨rfl, by decide, abnormal_closure_retry_ceiling sampleLoading 1006 rfl (by decide)⟩

/-- C3 counterexample: on a malformed payload the handler does NOT clear the
loading flag — `JSON.parse` throws before `setIsLoading(false)` is reached
and the catch block never clears it. -/
theorem malformed_payload_loading_cex :
    sampleLoading.isLoading = true ∧
    (Part003.onmessage 5 Inbound.malformed sampleLoading).isLoading = true :=
  ⟨rfl, rfl⟩

/-- C3 (amended): a malformed payload clears the ProcessingStatus list and
appends exactly one generic assistant failure Message with `error = true`,
while leaving the loading flag, the connection ref and everything else
unchanged; the handler is total, so no exception propagates. -/
theorem malformed_payload_effect (now : Nat) (s : ChatState) :
    Part003.onmessage now Inbound.malformed s =
      { s with processingStatuses := []
               messages := s.messages ++ [parseFailureMessage] } :=
  rfl

/-- C4: whenever the processing-status list is non-empty, a `message` frame
and an `error` frame each leave it empty; the `error` branch moreover clears
loading and appends one assistant Message embedding the carried error text
with `error = true`. -/
theorem terminal_frame_clears_statuses (now : Nat) (d e : InboundData)
    (s : ChatState) (_hne : s.processingStatuses ≠ [])
    (hd : d.type = "message") (he : e.type = "error") :
    (Part003.onmessage now (Inbound.parsed d) s).processingStatuses = [] ∧
    (Part003.onmessage now (Inbound.parsed e) s).processingStatuses = [] ∧
    Part003.onmessage now (Inbound.parsed e) s =
      { s with isLoading := false
               processingStatuses := []
               messages := s.messages ++
                 [{ role := Role.assistant
                    content := "Error: " ++ e.error
                    metadata := some { platform := none, error := true } }] } := by
  refine ⟨?_, ?_, ?_⟩ <;> simp [Part003.onmessage, hd, he]

/-- C4 witness at a concrete loading state with one pending status. -/
theorem terminal_frame_clears_statuses_witness :
    sampleLoading.processingStatuses ≠ [] ∧
    messageFrameSample.type = "message" ∧ errorFrameSample.type = "error" ∧
    ((Part003.onmessage 9 (Inbound.parsed messageFrameSample) sampleLoading).processingStatuses = [] ∧
      (Part003.onmessage 9 (Inbound.parsed errorFrameSample) sampleLoading).processingStatuses = [] ∧
      Part003.onmessage 9 (Inbound.parsed errorFrameSample) sampleLoading =
        { sampleLoading with
            isLoading := false
            processingStatuses := []
            messages := sampleLoading.messages ++
              [{ role := Role.assistant
                 content := "Error: " ++ errorFrameSample.error
                 metadata := some { platform := none, error := true } }] }) :=
  ⟨by decide, rfl, rfl,
    terminal_frame_clears_statuses 9 messageFrameSample errorFrameSample sampleLoading
      (by decide) rfl rfl⟩

/-- C5: invoking send with text whose trimmed form is empty is a complete
no-op — no frame is transmitted, no user Message is appended, and no state
changes at all. -/
theorem blank_input_send_noop (articleId brandId : String) (s : ChatState)
    (h : jsTrim s.input = "") :
    Frontend.sendMessage articleId brandId s =
      { state := s, sentFrame := none, connectCalled := false } := by
  simp [Frontend.sendMessage, Frontend.sendBlocked, h]

/-- C5 witness at a whitespace-only input. -/
theorem blank_input_send_noop_witness :
    jsTrim ({ disconnectedState with input := "   " } : ChatState).input = "" ∧
    Frontend.sendMessage "a1" "b1" { disconnectedState with input := "   " } =
      { state := { disconnectedState with input := "   " }
        sentFrame := none
        connectCalled := false } :=
  ⟨by decide, blank_input_send_noop "a1" "b1" _ (by decide)⟩

/-- A state with a reconnect timer pending and a live socket, as left by an
abnormal closure followed by a partially re-established connection. -/
def pendingTimerState : ChatState :=
  { messages := []
    input := ""
    isConnected := true
    isLoading := false
    processingStatuses := []
    reconnectAttempts := 1
    wsRef := some ReadyState.OPEN
    reconnectPending := true
    socketsCreated := 2
    clientIdsGenerated := 2 }

/-- Helper: `connectWebSocket` never touches the transcript. -/
theorem Frontend.connectWebSocket_messages (t : ChatState) :
    (Frontend.connectWebSocket t).messages = t.messages := by
  rcases hw : t.wsRef with _ | r
  · simp [Frontend.connectWebSocket, hw]
  · cases r <;> simp [Frontend.connectWebSocket, hw]

/-- C6 counterexample: with the socket ref null and the connected flag down
(connection not Open), `sendMessage` returns through the early guard: the
transcript is unchanged, but NO synthesized assistant error Message is
surfaced and `connectWebSocket()` is NOT triggered, contrary to the claim. -/
theorem send_disconnected_silent_cex :
    disconnectedState.wsRef ≠ some ReadyState.OPEN ∧
    (Frontend.sendMessage "a1" "b1" disconnectedState).state.messages =
      disconnectedState.messages ∧
    (Frontend.sendMessage "a1" "b1" disconnectedState).connectCalled = false :=
  ⟨by decide, rfl, rfl⟩

/-- C6 (amended): when the connection is not Open, `sendMessage` transmits no
frame; if the early guard trips (blank input, null socket ref, connected flag
down, or a send in flight) it returns silently with nothing appended and no
recovery attempt, and otherwise (stale connected flag over a non-open socket)
it appends exactly one assistant failure Message with `error = true` and
triggers `connectWebSocket()`. -/
theorem send_not_open_effect (articleId brandId : String) (s : ChatState)
    (h : s.wsRef ≠ some ReadyState.OPEN) :
    (Frontend.sendMessage articleId brandId s).sentFrame = none ∧
    (Frontend.sendMessage articleId brandId s).state.messages =
      (if Frontend.sendBlocked s then s.messages
       else s.messages ++ [sendFailureMessage]) ∧
    (Frontend.sendMessage articleId brandId s).connectCalled =
      !Frontend.sendBlocked s := by
  by_cases hb : Frontend.sendBlocked s
  · simp [Frontend.sendMessage, hb]
  · rcases hw : s.wsRef with _ | r
    · exfalso
      apply hb
      simp [Frontend.sendBlocked, hw]
    · cases r <;>
        first
        | exact absurd hw h
        | simp [Frontend.sendMessage, hb, hw, Frontend.connectWebSocket_messages]

/-- C6 amended-claim witness: a stale-open state (connected flag true, socket
readyState CLOSED) passes the guard, surfaces the failure Message and
triggers recovery. -/
theorem send_not_open_effect_witness :
    staleOpenState.wsRef ≠ some ReadyState.OPEN ∧
    ((Frontend.sendMessage "a1" "b1" staleOpenState).sentFrame = none ∧
      (Frontend.sendMessage "a1" "b1" staleOpenState).state.messages =
        (if Frontend.sendBlocked staleOpenState then staleOpenState.messages
         else staleOpenState.messages ++ [sendFailureMessage]) ∧
      (Frontend.sendMessage "a1" "b1" staleOpenState).connectCalled =
        !Frontend.sendBlocked staleOpenState) :=
  ⟨by decide, send_not_open_effect "a1" "b1" staleOpenState (by decide)⟩

/-- C7: a close event carrying the normal-closure code 1000 schedules no
reconnect, whatever the retry counter: in both variants the handler only
marks the connection down and nulls the socket ref. -/
theorem normal_close_no_reconnect (s : ChatState) :
    Part003.onclose 1000 s = { s with isConnected := false, wsRef := none } ∧
    Frontend.onclose 1000 s = { s with isConnected := false, wsRef := none } := by
  constructor <;> simp [Part003.onclose, Frontend.onclose]

/-- C8: if a reconnect timer is pending at unmount, the cleanup cancels it
and constructs no connection; the live socket is closed with
`close(1000, "Component unmounting")`, and the resulting close event (code
1000) schedules nothing, so no connection attempt occurs after unmount. -/
theorem unmount_cleanup_cancels_timer (s : ChatState) (r : ReadyState)
    (_hp : s.reconnectPending = true) (hw : s.wsRef = some r) :
    (Frontend.cleanup s).1.reconnectPending = false ∧
    (Frontend.cleanup s).1.socketsCreated = s.socketsCreated ∧
    (Frontend.cleanup s).2 = some (1000, "Component unmounting") ∧
    (Frontend.onclose 1000 (Frontend.cleanup s).1).reconnectPending = false := by
  refine ⟨?_, ?_, ?_, ?_⟩ <;> simp [Frontend.cleanup, Frontend.onclose, hw]

/-- C8 witness at a concrete state with a pending timer and an open socket. -/
theorem unmount_cleanup_cancels_timer_witness :
    pendingTimerState.reconnectPending = true ∧
    pendingTimerState.wsRef = some ReadyState.OPEN ∧
    ((Frontend.cleanup pendingTimerState).1.reconnectPending = false ∧
      (Frontend.cleanup pendingTimerState).1.socketsCreated =
        pendingTimerState.socketsCreated ∧
      (Frontend.cleanup pendingTimerState).2 = some (1000, "Component unmounting") ∧
      (Frontend.onclose 1000 (Frontend.cleanup pendingTimerState).1).reconnectPending =
        false) :=
  ⟨rfl, rfl, unmount_cleanup_cancels_timer pendingTimerState ReadyState.OPEN rfl rfl⟩

/-- C9: `connectWebSocket` is idempotent while a connection is CONNECTING or
OPEN — the call returns the state untouched, so no socket is constructed, no
client identifier is generated and nothing is mutated. -/
theorem connect_idempotent_when_active (s : ChatState)
    (h : s.wsRef = some ReadyState.CONNECTING ∨ s.wsRef = some ReadyState.OPEN) :
    Part003.connectWebSocket s = s := by
  rcases h with h | h <;> simp [Part003.connectWebSocket, h]

/-- C9 witness at a concrete state with an OPEN socket. -/
theorem connect_idempotent_when_active_witness :
    (sampleLoading.wsRef = some ReadyState.CONNECTING ∨
      sampleLoading.wsRef = some ReadyState.OPEN) ∧
    Part003.connectWebSocket sampleLoading = sampleLoading :=
  ⟨Or.inr rfl, connect_idempotent_when_active sampleLoading (Or.inr rfl)⟩

/-- C10: a parsed frame whose type discriminator matches none of the handled
branches appends no Message and no ProcessingStatus, but does set the loading
flag to false, in both variants. -/
theorem unknown_frame_type_effect (now : Nat) (d : InboundData) (s : ChatState)
    (h1 : d.type ≠ "ping") (h2 : d.type ≠ "status")
    (h3 : d.type ≠ "processing_status") (h4 : d.type ≠ "message")
    (h5 : d.type ≠ "error") :
    Part003.onmessage now (Inbound.parsed d) s = { s with isLoading := false } ∧
    Frontend.onmessage now (Inbound.parsed d) s = { s with isLoading := false } := by
  constructor <;> simp [Part003.onmessage, Frontend.onmessage, h1, h2, h3, h4, h5]

/-- C10 witness at a concrete frame of type "pong". -/
theorem unknown_frame_type_effect_witness :
    unknownFrameSample.type ≠ "ping" ∧ unknownFrameSample.type ≠ "status" ∧
    unknownFrameSample.type ≠ "processing_status" ∧
    unknownFrameSample.type ≠ "message" ∧ unknownFrameSample.type ≠ "error" ∧
    (Part003.onmessage 7 (Inbound.parsed unknownFrameSample) sampleLoading =
        { sampleLoading with isLoading := false } ∧
      Frontend.onmessage 7 (Inbound.parsed unknownFrameSample) sampleLoading =
        { sampleLoading with isLoading := false }) :=
  ⟨by decide, by decide, by decide, by decide, by decide,
    unknown_frame_type_effect 7 unknownFrameSample sampleLoading
      (by decide) (by decide) (by decide) (by decide) (by decide)⟩
